import Mathlib

/-!
Shallow embedding of the dynamic-programming core of the parts-based
detector (`src/DynamicProgram.cpp`, `src/PartsBasedDetector.cpp`).

Scores are IEEE floats in the source; the only non-finite values the code
manufactures are the two infinities used as envelope sentinels and as the
initial incumbent / infeasible-cell marker, so scores are embedded as a
rational number or one of the two infinities (`Val`).  Array accesses are
bounds-checked and every routine is `Option`-valued: `none` models an
out-of-bounds access or a failed `assert`.
-/

namespace PBD

/-- A float score value: a rational, or one of the two infinities the code
creates explicitly (`numeric_limits<float>::infinity()`). -/
inductive Val where
  | ninf : Val
  | fin : ℚ → Val
  | pinf : Val
deriving DecidableEq

/-- Comparison `s <= z` of a finite float `s` against a possibly infinite
float `z`, as IEEE evaluates it (line 168 of `DynamicProgram.cpp`). -/
def qLe (s : ℚ) : Val → Bool
  | .ninf => false
  | .fin x => decide (s ≤ x)
  | .pinf => true

/-- Comparison `z < q` of a possibly infinite float `z` against a finite
float `q` (line 181). -/
def vLtQ : Val → ℚ → Bool
  | .ninf, _ => true
  | .fin x, q => decide (x < q)
  | .pinf, _ => false

/-- Strict IEEE `<` on scores (the `in_ptr[k][n] > v` test of line 127,
with the arguments swapped into `v < in_ptr[k][n]`). -/
def Val.ltB : Val → Val → Bool
  | .ninf, .ninf => false
  | .ninf, _ => true
  | .fin x, .fin y => decide (x < y)
  | .fin _, .pinf => true
  | .fin _, .ninf => false
  | .pinf, _ => false

/-- Adding a finite scalar to a score (`Mat + bias`, line 321): the
infinities absorb. -/
def Val.addQ : Val → ℚ → Val
  | .ninf, _ => .ninf
  | .fin x, c => .fin (x + c)
  | .pinf, _ => .pinf

/-- Bounds-checked array store `l[i] = x`; `none` models a write outside
the `new`-allocated extent. -/
def setAt (l : List α) (i : ℕ) (x : α) : Option (List α) :=
  if i < l.length then some (l.set i x) else none

/-! ## 1D generalized distance transform
`DynamicProgram::distanceTransform1D` (lines 158-188). -/

/-- Intersection abscissa of the parabolas rooted at source positions `q`
and `p` (lines 167 and 171):
`s = ((src[q] - src[p]) - b*(q - p) + a*(q^2 - p^2)) / (2*a*(q - p))`.
Reads of `src` are bounds-checked. -/
def intersectAt (src : List ℚ) (a b : ℚ) (q p : ℕ) : Option ℚ := do
  let sq ← src[q]?
  let sp ← src[p]?
  some (((sq - sp) - b * ((q : ℚ) - (p : ℚ)) + a * ((q : ℚ) ^ 2 - (p : ℚ) ^ 2)) /
    (2 * a * ((q : ℚ) - (p : ℚ))))

/-- The pop loop of lines 168-172: `while (s <= z[k]) { k--; s = ...; }`.
Each iteration decrements `k` and re-reads `v[k]`; decrementing past the
bottom of the stack reads `v[-1]`, the out-of-bounds branch (`none`). -/
def popLoop (src : List ℚ) (a b : ℚ) (q : ℕ) (v : List ℕ) (z : List Val) :
    ℕ → ℚ → Option (ℕ × ℚ)
  | k, s => do
    let zk ← z[k]?
    if qLe s zk then
      match k with
      | 0 => none
      | k' + 1 => do
        let p ← v[k']?
        let s' ← intersectAt src a b q p
        popLoop src a b q v z k' s'
    else
      some (k, s)

/-- One iteration of the envelope-construction loop body (lines 167-176)
at candidate position `q`, on state `(k, v, z)`. -/
def envStep (src : List ℚ) (a b : ℚ) (st : ℕ × List ℕ × List Val) (q : ℕ) :
    Option (ℕ × List ℕ × List Val) := do
  let (k, v, z) := st
  let p ← v[k]?
  let s0 ← intersectAt src a b q p
  let (k1, s) ← popLoop src a b q v z k s0
  let k2 := k1 + 1
  let v2 ← setAt v k2 q
  let z2 ← setAt z k2 (Val.fin s)
  let z3 ← setAt z2 (k2 + 1) Val.pinf
  some (k2, v2, z3)

/-- First pass of `distanceTransform1D` (lines 160-177): allocate
`v = new int[n]` and `z = new float[n+1]` (unwritten slots of the fresh
allocations are modelled by the `replicate` defaults, which the intended
algorithm never reads back), set `v[0] = 0`, `z[0] = +inf`, `z[1] = -inf`,
and run the envelope loop for `q = 1, ..., n-1`. -/
def dtEnvelope (src : List ℚ) (a b : ℚ) : Option (ℕ × List ℕ × List Val) := do
  let n := src.length
  let v ← setAt (List.replicate n 0) 0 0
  let z ← setAt (List.replicate (n + 1) Val.ninf) 0 Val.pinf
  let z1 ← setAt z 1 Val.ninf
  (List.range' 1 (n - 1)).foldlM (envStep src a b) (0, v, z1)

/-- The cursor advance of line 181: `while (z[k+1] < q) k++`.  The fuel
argument only bounds the recursion; it is taken large enough
(`z.length + 1`) that the loop always stops or fails on an out-of-bounds
read of `z[k+1]` first. -/
def cursorLoop (z : List Val) (q : ℕ) : ℕ → ℕ → Option ℕ
  | 0, _ => none
  | fuel + 1, k => do
    let zk1 ← z[k + 1]?
    if vLtQ zk1 (q : ℚ) then cursorLoop z q fuel (k + 1) else some k

/-- One iteration of the fill loop body (lines 180-184) at output position
`q`: advance the cursor, then
`dst[q] = a*(q - v[k])^2 + b*(q - v[k]) + src[v[k]]` and `ptr[q] = v[k]`. -/
def fillStep (src : List ℚ) (a b : ℚ) (v : List ℕ) (z : List Val)
    (st : ℕ × List ℚ × List ℕ) (q : ℕ) : Option (ℕ × List ℚ × List ℕ) := do
  let (k, dst, ptr) := st
  let k1 ← cursorLoop z q (z.length + 1) k
  let p ← v[k1]?
  let sp ← src[p]?
  let dst1 ← setAt dst q (a * ((q : ℚ) - (p : ℚ)) ^ 2 + b * ((q : ℚ) - (p : ℚ)) + sp)
  let ptr1 ← setAt ptr q p
  some (k1, dst1, ptr1)

/-- `DynamicProgram::distanceTransform1D` (lines 158-188): envelope pass,
then the fill pass for `q = 0, ..., n-1`, returning `(dst, ptr)`. -/
def distanceTransform1D (src : List ℚ) (a b : ℚ) : Option (List ℚ × List ℕ) := do
  let n := src.length
  let (_, v, z) ← dtEnvelope src a b
  let (_, dst, ptr) ← (List.range n).foldlM (fillStep src a b v z)
    (0, List.replicate n 0, List.replicate n 0)
  some (dst, ptr)

/-! ## 2D generalized distance transform
`DynamicProgram::distanceTransform` (lines 207-257). -/

/-- `DynamicProgram::distanceTransform` (lines 207-257): read the learned
coefficients `w = (ax, bx, ay, by)`, run `distanceTransform1D` along every
row with the negated coefficients `(-ax, -bx)` (line 229), transpose, run
it along every row of the transpose with `(-ay, -by)` (line 237),
transpose back, then recompose the row indices through the column argmins:
`Iy[m][n] := Iy[m][Ix[m][n]]` (lines 246-256). -/
def distanceTransform (scoreIn : List (List ℚ)) (w : List ℚ) :
    Option (List (List ℚ) × List (List ℕ) × List (List ℕ)) := do
  let ax ← w[0]?
  let bx ← w[1]?
  let ay ← w[2]?
  let byc ← w[3]?
  let rowRes ← scoreIn.mapM (fun r => distanceTransform1D r (-ax) (-bx))
  let scoreTmp := (rowRes.map Prod.fst).transpose
  let Ix := rowRes.map Prod.snd
  let colRes ← scoreTmp.mapM (fun r => distanceTransform1D r (-ay) (-byc))
  let scoreOut := (colRes.map Prod.fst).transpose
  let Iy := (colRes.map Prod.snd).transpose
  let IyF ← (List.range scoreIn.length).mapM (fun m => do
    let iyRow ← Iy[m]?
    let ixRow ← Ix[m]?
    ixRow.mapM (fun j => iyRow[j]?))
  some (scoreOut, Ix, IyF)

/-! ## Reduction primitives
`reducePickIndex` (lines 66-91) and `reduceMax` (lines 104-132).  Both
walk the planes through raw row pointers and, for the continuous storage
every freshly created `Mat` in this program has, collapse the plane to a
single row of `rows*cols` entries (lines 82 and 119); a plane is therefore
embedded as its flat row-major buffer. -/

/-- A score plane, flattened to its row-major buffer. -/
abbrev ScorePlane := List Val

/-- `reducePickIndex` (lines 66-91): assert every index value lies in
`[0, K)` (lines 70-72) and that shapes agree (line 73), then
`out[n] = in[idx[n]][n]` (line 88).  The `getD` defaults are never
reached once the two asserts have passed. -/
def reducePickIndex (d : α) (planes : List (List α)) (idx : List ℕ) :
    Option (List α) :=
  let K := planes.length
  if (idx.all fun i => i < K) && (planes.all fun p => p.length = idx.length) then
    some ((List.range idx.length).map fun n =>
      (planes.getD (idx.getD n 0) []).getD n d)
  else none

/-- The inner `k`-loop of `reduceMax` at flat position `n` (lines
124-130): starting from the incumbent `v = -inf`, `i = 0`, each plane
value strictly greater than `v` becomes the incumbent — and the code
records `i = n`, the flat cell position, not the plane index `k`
(line 127). -/
def reduceMaxCell (column : List Val) (n : ℕ) : Val × ℕ :=
  column.foldl (fun st x => if Val.ltB st.1 x then (x, n) else st) (Val.ninf, 0)

/-- `reduceMax` (lines 104-132): assert `K > 1` (line 108) and equal
shapes (line 109), then reduce each flat position with `reduceMaxCell`,
returning the plane of maxima and the plane of recorded indices. -/
def reduceMax (planes : List ScorePlane) : Option (ScorePlane × List ℕ) :=
  let K := planes.length
  if 1 < K then
    let N := (planes.headD []).length
    if planes.all fun p => p.length = N then
      let cells := (List.range N).map fun n =>
        reduceMaxCell (planes.map fun p => p.getD n Val.ninf) n
      some (cells.map Prod.fst, cells.map Prod.snd)
    else none
  else none

/-! ## Message-passing engine
`DynamicProgram::minRecursive` (lines 260-337), `DynamicProgram::min`
(lines 358-371), `DynamicProgram::argmin` (lines 378-381) and
`PartsBasedDetector::detect` (lines 52-69 of `PartsBasedDetector.cpp`). -/

/-- The valid-region-of-interest computation of `minRecursive`
(lines 291-298), for a plane of extent `X = cols`, `Y = rows` and anchor
`(ax, ay)`.  Note line 296 clips `ymax` against `X` rather than `Y`:
`ymax = min(anchor.y + Y, X)`. -/
def anchorROI (ax ay : ℤ) (X Y : ℤ) : ℤ × ℤ × ℤ × ℤ × ℤ × ℤ :=
  (max ax 0, max ay 0, min (ax + X) X, min (ay + Y) X, max (-ax) 0, max (-ay) 0)

/-- The mixture-combination loop of `minRecursive` (lines 315-336).
`scores` is the global response vector (passed by reference through the
recursion), `scoresi`/`Ixi`/`Iyi` are the per-mixture shifted planes
built by lines 280-312, `bias` the node's pairwise bias matrix, and `Np`
the parent's base slot (line 279).  For each parent mixture `m` the loop
stacks `scores[mm] + bias[m][mm]` for `mm < nmixtures` — reading the
global vector at raw index `mm`, not the shifted plane `scoresi[mm]`
(line 321, where `scoresi` is never read) — reduces the stack with
`reduceMax`, picks `Ix`/`Iy` through the winning indices, and writes the
max plane into slot `Np + m` (line 335). -/
def minRecursiveMix (nmixtures Np : ℕ) (bias : List (List ℚ))
    (scoresi : List ScorePlane) (Ixi Iyi : List (List ℕ))
    (scores : List ScorePlane) :
    Option (List ScorePlane × List (List ℕ) × List (List ℕ) × List (List ℕ)) :=
  (List.range nmixtures).foldlM (fun st m => do
    let (sc, Ix, Iy, Ik) := st
    let biasm ← bias[m]?
    let weighted ← (List.range nmixtures).mapM (fun mm => do
      let s ← sc[mm]?
      let c ← biasm[mm]?
      some (s.map fun x => Val.addQ x c))
    let (maxv, maxi) ← reduceMax weighted
    let Ixm ← reducePickIndex 0 Ixi maxi
    let Iym ← reducePickIndex 0 Iyi maxi
    let sc1 ← setAt sc (Np + m) maxv
    some (sc1, Ix ++ [Ixm], Iy ++ [Iym], Ik ++ [maxi]))
    (scores, ([] : List (List ℕ)), ([] : List (List ℕ)), ([] : List (List ℕ)))

/-- Modelled from the spec: the `Part` tree node of §3 is declared in
`DynamicProgram.hpp`, which is outside this fragment; only the two
accessors `DynamicProgram::min` reads are kept: `ndescendants()` (parts
in the subtree minus one) and `nmixtures()`. -/
structure Part where
  ndescendants : ℕ
  nmixtures : ℕ

/-- `DynamicProgram::min` (lines 358-371): the validation at line 361,
`assert(responses.size() == (rootpart.ndescendants()+1 * rootpart.nmixtures() * nscales))`,
in which `*` binds tighter than `+` so the compared count is
`ndescendants + nmixtures * nscales`; then the reads of
`responses[nparts*nmixtures*scale]` with `scale = 0` (lines 368-369).
The rest of the body is empty. -/
def DynamicProgram.min (rootpart : Part) (responses : List (List (List ℚ)))
    (nscales : ℕ) : Option Unit := do
  if responses.length = rootpart.ndescendants + 1 * rootpart.nmixtures * nscales then
    let nparts := rootpart.ndescendants + 1
    let nmixtures := rootpart.nmixtures
    let scale := 0
    let _ ← responses[nparts * nmixtures * scale]?
    some ()
  else none

/-- Modelled from the spec: the `Candidate` record of §3 is declared
outside this fragment; per its contract it maps each part to a chosen
mixture, pixel location and scale, with the total score. -/
structure Candidate where
  parts : List (ℕ × ℤ × ℤ × ℕ)
  score : ℚ

/-- `DynamicProgram::argmin` (lines 378-381): returns a freshly
constructed empty vector. -/
def DynamicProgram.argmin : List Candidate := []

/-- `PartsBasedDetector::detect` (`PartsBasedDetector.cpp`, lines 52-69):
build the feature pyramid, convolve it into the response pdf (both
supplied by the external `features_` collaborator, passed here as
functions), run the dynamic program over the responses, bind
`candidates = dp_.argmin()`, and return a freshly constructed empty
vector (line 68), discarding `candidates`.  The call to `dp_.min`
(line 63) can fail its response-count assert, aborting the whole call
before anything is returned: that abort propagates as `none`. -/
def PartsBasedDetector.detect {Image : Type}
    (pyramid : Image → List (List (List ℚ)))
    (pdf : List (List (List ℚ)) → List (List (List ℚ)))
    (root : Part) (nscales : ℕ) (im : Image) : Option (List Candidate) := do
  let pyr := pyramid im
  let pdfv := pdf pyr
  let _ ← DynamicProgram.min root pdfv nscales
  let _candidates := DynamicProgram.argmin
  some []

end PBD

namespace PBD

/-- C1: the claim says that for every `src` of length `n >= 1` and `a > 0`,
`distanceTransform1D` returns `dst`/`arg` realizing the true minimum of the
quadratic cost.  In fact the routine never returns at all: with the
sentinels initialized as `z[0] = +inf`, `z[1] = -inf` (lines 164-165), the
pop test `s <= z[0]` always holds, so already for `src = [0, 0]`, `a = 1`,
`b = 0` the code reads `v[-1]` out of bounds; for the singleton
`src = [0]` the fill pass reads `z[2]` out of bounds. -/
theorem distanceTransform1D_oob :
    distanceTransform1D [(0 : ℚ), 0] 1 0 = none ∧
      distanceTransform1D [(0 : ℚ)] 1 0 = none := by
  constructor <;> rfl

/-- C2: the claim says the pop loop never drives the stack index below 0,
making the out-of-bounds branch unreachable.  On `src = [1, 2, 3]`,
`a = 1`, `b = 0` the very first pop test at `q = 1` compares the finite
intersection `s` against `z[0] = +inf` (swapped sentinel, line 164),
succeeds, decrements `k` from 0, and hits the out-of-bounds branch: the
envelope pass returns `none`. -/
theorem dtEnvelope_underflows :
    dtEnvelope [(1 : ℚ), 2, 3] 1 0 = none := by
  rfl

/-- C3: the claim says that on every plane with coefficients in the valid
regime the 2D transform's `scoreOut`/`Ix`/`Iy` satisfy the consistency
identity.  But `distanceTransform` runs `distanceTransform1D` on every
row, and every such run performs an out-of-bounds read (swapped
sentinels, lines 164-165): already on the 2x2 zero plane with
`w = (-1, 0, -1, 0)` (so the 1D transform receives `a = 1 > 0`) the 2D
transform produces no output at all. -/
theorem distanceTransform_oob :
    distanceTransform [[(0 : ℚ), 0], [0, 0]] [-1, 0, -1, 0] = none := by
  rfl

/-- C4: the claim says `maxIdx[cell]` is the plane index attaining the
per-cell maximum, hence lies in `[0, K)`.  Line 127 records `i = n` — the
flat cell position — instead of `i = k`: on the two 1x3 planes
`[0, 5, 1]` and `[1, 2, 3]` the code returns `maxIdx = [0, 1, 2]`,
whereas the winning plane indices are `[1, 0, 1]`; at cell 2 the recorded
index 2 even falls outside `[0, K) = [0, 2)`. -/
theorem reduceMax_records_position_not_plane :
    reduceMax [[Val.fin 0, Val.fin 5, Val.fin 1], [Val.fin 1, Val.fin 2, Val.fin 3]] =
      some ([Val.fin 1, Val.fin 5, Val.fin 3], [0, 1, 2]) := by
  rfl

/-- C5: the claim says `pickByIndex(planes, maxIdx)` always succeeds and
reproduces `maxVal`.  Because `reduceMax` stores flat cell positions
(line 127), on the two 1x3 planes `[1, 0, 9]` and `[0, 2, 4]` it returns
`maxIdx = [0, 1, 2]`, whose value 2 fails `reducePickIndex`'s range
assert `maxv < K` (line 72): the composition aborts instead of
round-tripping. -/
theorem reducePickIndex_reduceMax_no_roundtrip :
    (reduceMax [[Val.fin 1, Val.fin 0, Val.fin 9], [Val.fin 0, Val.fin 2, Val.fin 4]]).bind
      (fun r => reducePickIndex Val.ninf
        [[Val.fin 1, Val.fin 0, Val.fin 9], [Val.fin 0, Val.fin 2, Val.fin 4]] r.2) =
      none := by
  rfl

/-- C6 counterexample: the claim says `reduceMax` on a singleton stack
succeeds, returning the plane unchanged and an all-zero index plane.  The
code asserts `K > 1` (line 108) before anything else, so on the concrete
singleton stack `[[3, 4]]` it fails instead of returning
`some ([3, 4], [0, 0])`. -/
theorem reduceMax_singleton_fails :
    reduceMax [[Val.fin 3, Val.fin 4]] = none := by
  rfl

/-- C6 (amended): `reduceMax` applied to a singleton stack fails its
`K > 1` precondition check (the assert at line 108) and returns no
result, for every plane. -/
theorem reduceMax_singleton_none (p : ScorePlane) :
    reduceMax [p] = none := by
  simp [reduceMax]

/-- C7: the claim says the planes stacked and reduced for each parent
mixture are the anchor-shifted, distance-transformed planes of step 3
(`scoresi`).  Line 321 stacks `scores[mm] + bias[m][mm]` — the global
response vector at raw index `mm` — instead, and `scoresi` is never
read: with shifted planes `scoresi = [[-inf], [9]]` (mixture 0 fully
clipped, mixture 1 scoring 9), zero bias, and global planes
`[[5], [-inf], [0], [0]]`, both parent slots (`Np = 2`) receive the
value 5 of raw global plane 0 with winning index 0, not the value 9 of
shifted mixture 1 the claim requires. -/
theorem minRecursiveMix_uses_global_scores :
    minRecursiveMix 2 2 [[0, 0], [0, 0]] [[Val.ninf], [Val.fin 9]]
      [[0], [0]] [[0], [0]]
      [[Val.fin 5], [Val.ninf], [Val.fin 0], [Val.fin 0]] =
      some ([[Val.fin 5], [Val.ninf], [Val.fin 5], [Val.fin 5]],
        [[0], [0]], [[0], [0]], [[0], [0]]) := by
  have h :
      minRecursiveMix 2 2 [[0, 0], [0, 0]] [[Val.ninf], [Val.fin 9]]
        [[0], [0]] [[0], [0]]
        [[Val.fin 5], [Val.ninf], [Val.fin 0], [Val.fin 0]] =
        some ([[Val.fin 5], [Val.ninf], [Val.fin (5 + 0)], [Val.fin (5 + 0)]],
          [[0], [0]], [[0], [0]], [[0], [0]]) := rfl
  simpa using h

/-- C8: the claim's concrete scenario (two-node tree, one mixture, zero
bias, anchor `(1, 0)`, unit deformation weights, leaf response 10 at
cell `(2, 3)` and 0 elsewhere) expects the root's combined score to peak
at `(1, 3)` with value 10 and `-inf` outside the valid overlap.  But
step 2 of `minRecursive` (line 285) — the 2D distance transform of the
leaf response — already dies on an out-of-bounds read (swapped
sentinels, lines 164-165), so the shift/clip step is never reached and
no peak is produced. -/
theorem minRecursive_scenario_dt_oob :
    distanceTransform [[(0 : ℚ), 0, 0, 0], [0, 0, 0, 0], [0, 0, 0, 10]]
      [1, 1, 1, 1] = none := by
  rfl

/-- C9: the claim says `min` fails exactly when the response count
differs from `(ndescendants + 1) * nmixtures * nscales`.  The assert at
line 361 lacks parentheses, so it compares against
`ndescendants + nmixtures * nscales`: with `ndescendants = 1`,
`nmixtures = 2`, `nscales = 1` the correct count 4 is rejected while the
wrong count 3 is accepted. -/
theorem min_size_check_precedence :
    DynamicProgram.min ⟨1, 2⟩ (List.replicate 4 [[(0 : ℚ)]]) 1 = none ∧
      DynamicProgram.min ⟨1, 2⟩ (List.replicate 3 [[(0 : ℚ)]]) 1 = some () := by
  constructor <;> rfl

/-- C10 counterexample: the claim says `detect` returns an empty
candidate vector for every input image.  When the response count the
`pdf` collaborator delivers disagrees with the model, the assert inside
`dp_.min` (line 63 of `PartsBasedDetector.cpp`, line 361 of
`DynamicProgram.cpp`) aborts the call before anything is returned:
with a tree of 2 parts and 2 mixtures at 1 scale, 5 response planes
fail the size check under both its intended and its actual grouping,
and `detect` returns nothing at all rather than an empty vector. -/
theorem detect_aborts_on_size_mismatch :
    PartsBasedDetector.detect (fun _ => []) (fun _ => List.replicate 5 [[(0 : ℚ)]])
      ⟨1, 2⟩ 1 () = none := by
  rfl

/-- C10 (amended): for every input image (and any behavior of the
external pyramid/pdf collaborators), whenever `detect` returns at all —
that is, unless the response-count assert inside `dp_.min` aborts the
call — it returns an empty candidate vector: the list bound from
`dp_.argmin()` is discarded and a freshly constructed empty vector is
returned (line 68), so no detection is ever reported. -/
theorem detect_never_reports {Image : Type}
    (pyramid : Image → List (List (List ℚ)))
    (pdf : List (List (List ℚ)) → List (List (List ℚ)))
    (root : Part) (nscales : ℕ) (im : Image) :
    PartsBasedDetector.detect pyramid pdf root nscales im = none ∨
      PartsBasedDetector.detect pyramid pdf root nscales im = some [] := by
  unfold PartsBasedDetector.detect
  rcases h : DynamicProgram.min root (pdf (pyramid im)) nscales with _ | u <;>
    simp [h]

end PBD
